import Mathlib

/-!
Shallow embedding of `src/application/chat-interface/index.js`: an Express
server exposing `GET /` and `POST /` over a model-provider adapter with two
variants (Vertex AI with ambient credentials, Google AI Studio with an API
key fetched from Secret Manager).

JavaScript runtime behaviour that the handlers rely on is made explicit:
  * JSON/JS values are `JValue` (with an `undefined` constructor for the
    JavaScript `undefined` produced by a missing object field);
  * JS truthiness is `JValue.truthy`;
  * `String.prototype.trim` is `jsTrim`;
  * a thrown exception inside the `try` of the POST handler is an
    `Except.error` carrying the error message;
  * `process.env.X || d` on string-valued env vars is `normEnv` + `getD`
    (an env var set to the empty string is falsy, like an unset one).
External collaborators (Secret Manager, the two model backends) are
parameters: a secret store is `String → Except String String` (version
path to payload), and a model backend maps the user message to the
backend response (deterministic, as in the spec's stub).
-/

/-- JavaScript/JSON values as seen by the request handlers.  `undefined` is the
JavaScript `undefined` (a missing object field); JSON numbers are modelled
as integers, which is enough for the truthiness distinctions the code
makes. -/
inductive JValue where
  | undefined : JValue
  | null : JValue
  | bool (b : Bool) : JValue
  | num (n : Int) : JValue
  | str (s : String) : JValue
  | obj (fields : List (String × JValue)) : JValue
  | arr (elems : List JValue) : JValue

/-- First-match lookup in a JS object's field list; a missing key yields
`undefined`. -/
def lookupField : List (String × JValue) → String → JValue
  | [], _ => .undefined
  | (k, v) :: rest, key => if k = key then v else lookupField rest key

/-- `value.key` property access: on a non-object body (Express with
`express.json()` only produces objects or arrays here) the field reads as
`undefined`. -/
def JValue.getField : JValue → String → JValue
  | .obj fs, key => lookupField fs key
  | _, _ => .undefined

/-- JavaScript truthiness of a value. -/
def JValue.truthy : JValue → Bool
  | .undefined => false
  | .null => false
  | .bool b => b
  | .num n => n != 0
  | .str s => s != ""
  | .obj _ => true
  | .arr _ => true

/-- Whitespace characters removed by `String.prototype.trim` (ASCII
whitespace plus the common Unicode ones). -/
def isJsWhitespace (c : Char) : Bool :=
  c = ' ' || c = '\t' || c = '\n' || c = '\r' || c = '\x0b' || c = '\x0c' ||
    c = '\u00A0' || c = '\uFEFF'

/-- `String.prototype.trim`: strip leading and trailing whitespace. -/
def jsTrim (s : String) : String :=
  ⟨((s.data.dropWhile isJsWhitespace).reverse.dropWhile isJsWhitespace).reverse⟩

/-- The raw environment read at startup (`process.env`); `none` is an unset
variable. -/
structure Env where
  MODEL_NAME : Option String
  GOOGLE_CLOUD_PROJECT : Option String
  GCP_PROJECT : Option String
  GOOGLE_CLOUD_REGION : Option String
  GCP_REGION : Option String
  MODEL_PROVIDER : Option String
  GOOGLE_AI_STUDIO_API_SECRET : Option String

/-- `process.env.X` normalised for `||`-chaining: an env var set to the
empty string is falsy, hence behaves exactly like an unset one. -/
def normEnv : Option String → Option String
  | some "" => none
  | v => v

/-- The module-level configuration constants of `index.js`, resolved once
at startup. -/
structure Config where
  modelName : String
  project : Option String
  location : String
  modelProvider : String
  googleAIStudioApiSecret : String

/-- Lines 10-18 of `index.js`: resolve the configuration constants from the
environment with their defaults
(`process.env.MODEL_NAME || 'gemini-2.0-flash-lite'`, etc.). -/
def resolveConfig (env : Env) : Config where
  modelName := (normEnv env.MODEL_NAME).getD "gemini-2.0-flash-lite"
  project := (normEnv env.GOOGLE_CLOUD_PROJECT) <|> (normEnv env.GCP_PROJECT)
  location :=
    ((normEnv env.GOOGLE_CLOUD_REGION) <|> (normEnv env.GCP_REGION)).getD "us-central1"
  modelProvider := (normEnv env.MODEL_PROVIDER).getD "google-ai-studio"
  googleAIStudioApiSecret :=
    (normEnv env.GOOGLE_AI_STUDIO_API_SECRET).getD "gemini-api-key-secret"

/-- The constructed (not yet initialized) provider: the two subclasses of
`ModelProvider` with their constructor fields. -/
inductive Provider where
  | vertexAI (modelName : String) (project : Option String) (location : String)
  | googleAIStudio (modelName : String) (project : Option String) (secretName : String)

/-- `createProvider` (lines 93-109): dispatch on the `modelProvider`
selector; an unrecognised value throws
`Invalid model provider: ${modelProvider}`. -/
def createProvider (cfg : Config) : Except String Provider :=
  if cfg.modelProvider = "google-vertexai" then
    .ok (.vertexAI cfg.modelName cfg.project cfg.location)
  else if cfg.modelProvider = "google-ai-studio" then
    .ok (.googleAIStudio cfg.modelName cfg.project cfg.googleAIStudioApiSecret)
  else
    .error ("Invalid model provider: " ++ cfg.modelProvider)

/-- The model handle held in `this.model` after a successful `init()`. -/
inductive InitedModel where
  | vertexModel (project : String) (location : String) (modelName : String)
  | studioModel (apiKey : String) (modelName : String)

/-- `VertexAIProvider.init` (lines 39-46): requires a truthy project, then
builds the Vertex client handle. -/
def VertexAIProvider.init (modelName : String) (project : Option String)
    (location : String) : Except String InitedModel :=
  match project with
  | none => .error "GOOGLE_CLOUD_PROJECT environment variable is required for Vertex AI"
  | some p => .ok (.vertexModel p location modelName)

/-- JS `s.startsWith(pre)`, defined structurally over the character lists
(semantically equal to `String.startsWith`). -/
def jsStartsWith (s pre : String) : Bool :=
  pre.data.isPrefixOf s.data

/-- Lines 76-78 of `index.js`: resolve the secret reference to a concrete
secret-version path. -/
def resolveSecretVersion (project : Option String) (secretName : String) : String :=
  if jsStartsWith secretName "projects/" then
    secretName ++ "/versions/latest"
  else
    "projects/" ++ project.getD "" ++ "/secrets/" ++ secretName ++ "/versions/latest"

/-- `GoogleAIStudioProvider.init` (lines 66-84): requires a truthy secret
name; a bare (non fully-qualified) secret name additionally requires a
truthy project; then fetches the secret payload, trims it, and builds the
AI Studio client handle from the resulting API key. -/
def GoogleAIStudioProvider.init (modelName : String) (project : Option String)
    (secretName : String) (store : String → Except String String) :
    Except String InitedModel :=
  if secretName = "" then
    .error "GOOGLE_AI_STUDIO_API_SECRET environment variable is required for Google AI Studio"
  else if project.isNone && !(jsStartsWith secretName "projects/") then
    .error "GOOGLE_CLOUD_PROJECT environment variable is required to resolve Secret Manager secrets"
  else
    match store (resolveSecretVersion project secretName) with
    | .error e => .error e
    | .ok payload => .ok (.studioModel (jsTrim payload) modelName)

/-- Dispatch `provider.init()` to the variant's method. -/
def initProvider (p : Provider) (store : String → Except String String) :
    Except String InitedModel :=
  match p with
  | .vertexAI m pr loc => VertexAIProvider.init m pr loc
  | .googleAIStudio m pr sec => GoogleAIStudioProvider.init m pr sec store

/-- The whole startup path: module-level `createProvider()` (line 111, an
uncaught throw crashes the process) followed by `startServer`
(lines 156-167: an `init` failure calls `process.exit(1)`).  `.ok ()`
means the process reached `app.listen` and bound its port; `.error e`
means it exited without binding the port. -/
def startup (env : Env) (store : String → Except String String) : Except String Unit :=
  match createProvider (resolveConfig env) with
  | .error e => .error e
  | .ok p =>
    match initProvider p store with
    | .error e => .error e
    | .ok _ => .ok ()

/-- One part of a Vertex response candidate's content. -/
structure VertexPart where
  text : String

/-- The content of a Vertex response candidate. -/
structure VertexContent where
  parts : List VertexPart

/-- One candidate of a Vertex backend response. -/
structure VertexCandidate where
  content : VertexContent

/-- A Vertex backend response: a list of candidates. -/
structure VertexResponse where
  candidates : List VertexCandidate

/-- Line 53 of `index.js`:
`response.candidates[0].content.parts[0].text`.  Indexing an empty
`candidates` or `parts` array yields `undefined`, and the subsequent
property access throws a `TypeError`, so the call fails rather than
returning a value. -/
def extractFirstCandidateText (r : VertexResponse) : Except String String :=
  match r.candidates with
  | [] => .error "Cannot read properties of undefined (reading 'content')"
  | c :: _ =>
    match c.content.parts with
    | [] => .error "Cannot read properties of undefined (reading 'text')"
    | p :: _ => .ok p.text

/-- `VertexAIProvider.generateContent` (lines 48-54), with the provider
object threaded through explicitly: the method only reads `this.model`
(whose remote behaviour is the `backend` parameter) and never assigns to
`this`, so the state it returns is the state it received. -/
def VertexAIProvider.generateContent (self : InitedModel)
    (backend : String → Except String VertexResponse) (userMessage : String) :
    Except String String × InitedModel :=
  let result :=
    match backend userMessage with
    | .error e => .error e
    | .ok r => extractFirstCandidateText r
  (result, self)

/-- An AI Studio backend response; `text` models the SDK's
`response.text()` accessor. -/
structure StudioResponse where
  text : String

/-- `GoogleAIStudioProvider.generateContent` (lines 86-90), state threaded
as for the Vertex variant: returns `result.response.text()` and never
assigns to `this`. -/
def GoogleAIStudioProvider.generateContent (self : InitedModel)
    (backend : String → Except String StudioResponse) (userMessage : String) :
    Except String String × InitedModel :=
  let result : Except String String :=
    match backend userMessage with
    | .error e => .error e
    | .ok r => .ok r.text
  (result, self)

/-- An HTTP response produced by a handler: status code and JSON body. -/
structure HttpResponse where
  status : Nat
  body : JValue

/-- The `400 {"error": "Message is required"}` validation response. -/
def resp400 : HttpResponse :=
  ⟨400, .obj [("error", .str "Message is required")]⟩

/-- The `500` response built in the POST handler's `catch` from a thrown
error's `message`. -/
def resp500 (details : String) : HttpResponse :=
  ⟨500, .obj [("error", .str "Error generating content"), ("details", .str details)]⟩

/-- The `debug` object of a successful POST response (lines 140-145). -/
def debugObj (cfg : Config) : JValue :=
  .obj [("MODEL_NAME", .str cfg.modelName),
        ("project", match cfg.project with | some p => .str p | none => .undefined),
        ("location", .str cfg.location),
        ("modelProvider", .str cfg.modelProvider)]

/-- The GET `/` handler (lines 122-124).  It is given the provider's
`generateContent` (the `provider` binding is in scope in the source) but
its body never mentions it; the second component counts provider
invocations. -/
def getHandler (_gen : String → Except String String) (body : JValue) :
    HttpResponse × Nat :=
  (⟨200, .obj [("message", .str "Health check successful"), ("request", body)]⟩, 0)

/-- The `try` block of the POST `/` handler (lines 127-146).  An
`Except.error` is an exception reaching the handler's `catch`; the `Nat`
counts invocations of `provider.generateContent`.  The validation
condition `!userMessage || !userMessage.trim()` first tests truthiness;
calling `.trim()` on a truthy non-string then throws a `TypeError`. -/
def postTry (cfg : Config) (gen : String → Except String String) (body : JValue) :
    Except (String × Nat) (HttpResponse × Nat) :=
  let userMessage := body.getField "message"
  if !userMessage.truthy then
    .ok (resp400, 0)
  else
    match userMessage with
    | .str s =>
      if jsTrim s = "" then
        .ok (resp400, 0)
      else
        match gen s with
        | .error e => .error (e, 1)
        | .ok t =>
          .ok (⟨200, .obj [("reply", .str t), ("request", body),
                           ("debug", debugObj cfg)]⟩, 1)
    | _ => .error ("userMessage.trim is not a function", 0)

/-- The POST `/` handler (lines 126-154): the `try` block with its `catch`
converting any thrown error to `resp500 error.message`.  The invocation
count rides along: a `gen` failure happened after one provider invocation,
a thrown `TypeError` in validation after zero. -/
def postHandler (cfg : Config) (gen : String → Except String String) (body : JValue) :
    HttpResponse × Nat :=
  match postTry cfg gen body with
  | .ok r => r
  | .error (e, n) => (resp500 e, n)

/-! Theorems about the embedding. -/

/-- Helper: a string all of whose characters are JS whitespace trims to the
empty string. -/
theorem jsTrim_eq_empty_of_all_whitespace (s : String)
    (h : ∀ c ∈ s.data, isJsWhitespace c = true) : jsTrim s = "" := by
  have h1 : s.data.dropWhile isJsWhitespace = [] :=
    List.dropWhile_eq_nil_iff.mpr h
  simp [jsTrim, h1]

example : jsTrim "  hi  " = "hi" := by decide
example : jsTrim "   " = "" := by decide
example : jsStartsWith "projects/p/secrets/s" "projects/" = true := by decide
example : jsStartsWith "my-secret" "projects/" = false := by decide

/-- C1: for the API-key-via-secret-store variant, a bare secret name `n`
with configured project `p` resolves to
`projects/p/secrets/n/versions/latest`; a fully-qualified reference
(starting with `projects/`) resolves to itself with `/versions/latest`
appended, and `init` succeeds on it with no configured project at all. -/
theorem studio_secret_version_resolution
    (n p fq : String) (hbare : jsStartsWith n "projects/" = false)
    (hfq : jsStartsWith fq "projects/" = true) :
    resolveSecretVersion (some p) n =
      "projects/" ++ p ++ "/secrets/" ++ n ++ "/versions/latest"
    ∧ (∀ q : Option String, resolveSecretVersion q fq = fq ++ "/versions/latest")
    ∧ (∀ (m payload : String) (store : String → Except String String),
        store (fq ++ "/versions/latest") = .ok payload →
        GoogleAIStudioProvider.init m none fq store =
          .ok (.studioModel (jsTrim payload) m)) := by
  have hfqne : fq ≠ "" := by
    intro h
    rw [h] at hfq
    simp [jsStartsWith, List.isPrefixOf] at hfq
  refine ⟨by simp [resolveSecretVersion, hbare], fun q => by simp [resolveSecretVersion, hfq],
    fun m payload store hstore => ?_⟩
  simp [GoogleAIStudioProvider.init, hfqne, hfq, resolveSecretVersion, hstore]

/-- Witness for C1 at the spec's own example values. -/
theorem studio_secret_version_resolution_witness :
    resolveSecretVersion (some "proj-1") "my-secret" =
      "projects/" ++ "proj-1" ++ "/secrets/" ++ "my-secret" ++ "/versions/latest"
    ∧ (∀ q : Option String,
        resolveSecretVersion q "projects/proj-1/secrets/my-secret" =
          "projects/proj-1/secrets/my-secret" ++ "/versions/latest")
    ∧ (∀ (m payload : String) (store : String → Except String String),
        store ("projects/proj-1/secrets/my-secret" ++ "/versions/latest") = .ok payload →
        GoogleAIStudioProvider.init m none "projects/proj-1/secrets/my-secret" store =
          .ok (.studioModel (jsTrim payload) m)) :=
  studio_secret_version_resolution "my-secret" "proj-1" "projects/proj-1/secrets/my-secret"
    (by decide) (by decide)

/-- C7: the GET handler answers 200 with the fixed health-check message and
the echoed request body, independently of the provider (which it never
invokes: zero provider calls). -/
theorem get_handler_health_check
    (gen gen' : String → Except String String) (body : JValue) :
    getHandler gen body =
      (⟨200, .obj [("message", .str "Health check successful"), ("request", body)]⟩, 0)
    ∧ getHandler gen body = getHandler gen' body :=
  ⟨rfl, rfl⟩

/-- C8: on either variant, `generateContent` leaves the provider object
unchanged and, against a deterministic backend, a second consecutive call
returns the same result as the first: the adapter keeps no cache or other
mutable state across calls. -/
theorem generate_stateless_idempotent (self : InitedModel)
    (vb : String → Except String VertexResponse)
    (sb : String → Except String StudioResponse) (m : String) :
    ((VertexAIProvider.generateContent self vb m).2 = self
      ∧ (VertexAIProvider.generateContent
          ((VertexAIProvider.generateContent self vb m).2) vb m).1 =
        (VertexAIProvider.generateContent self vb m).1)
    ∧ ((GoogleAIStudioProvider.generateContent self sb m).2 = self
      ∧ (GoogleAIStudioProvider.generateContent
          ((GoogleAIStudioProvider.generateContent self sb m).2) sb m).1 =
        (GoogleAIStudioProvider.generateContent self sb m).1) :=
  ⟨⟨rfl, rfl⟩, ⟨rfl, rfl⟩⟩

/-- C3: a POST body whose `message` field is missing, the empty string, or
a whitespace-only string is answered `400 {"error": "Message is required"}`
and the provider is never invoked (zero `generateContent` calls),
whatever the provider does. -/
theorem post_validation_400 (cfg : Config) (body : JValue) :
    (∀ gen, body.getField "message" = .undefined → postHandler cfg gen body = (resp400, 0))
    ∧ (∀ gen, body.getField "message" = .str "" → postHandler cfg gen body = (resp400, 0))
    ∧ (∀ gen s, body.getField "message" = .str s →
        (∀ c ∈ s.data, isJsWhitespace c = true) →
        postHandler cfg gen body = (resp400, 0)) := by
  refine ⟨fun gen h => ?_, fun gen h => ?_, fun gen s h hws => ?_⟩
  · simp [postHandler, postTry, h, JValue.truthy]
  · simp [postHandler, postTry, h, JValue.truthy]
  · by_cases hs : s = ""
    · subst hs
      simp [postHandler, postTry, h, JValue.truthy]
    · have ht := jsTrim_eq_empty_of_all_whitespace s hws
      simp [postHandler, postTry, h, JValue.truthy, hs, ht]

/-- Witness for C3: a missing field, the empty string and a blank string
each get the 400 with zero provider calls. -/
theorem post_validation_400_witness :
    postHandler ⟨"gemini-2.0-flash-lite", some "proj-1", "us-central1",
        "google-ai-studio", "gemini-api-key-secret"⟩
      (fun _ => .ok "ok") (.obj []) = (resp400, 0)
    ∧ postHandler ⟨"gemini-2.0-flash-lite", some "proj-1", "us-central1",
        "google-ai-studio", "gemini-api-key-secret"⟩
      (fun _ => .ok "ok") (.obj [("message", .str "")]) = (resp400, 0)
    ∧ postHandler ⟨"gemini-2.0-flash-lite", some "proj-1", "us-central1",
        "google-ai-studio", "gemini-api-key-secret"⟩
      (fun _ => .ok "ok") (.obj [("message", .str "   ")]) = (resp400, 0) :=
  ⟨(post_validation_400 _ _).1 _ rfl,
   (post_validation_400 _ _).2.1 _ rfl,
   (post_validation_400 _ _).2.2 _ "   " rfl (by decide)⟩

/-- C6: when the message is valid and the provider's generate fails, the
POST handler answers `500 {"error": "Error generating content", "details":
<the failure>}`; the failure is absorbed by the handler (which stays a
total function), and a subsequent valid request on the same handler is
served normally. -/
theorem post_generation_error_500
    (cfg : Config) (gen : String → Except String String) (body : JValue)
    (s e : String) (hmsg : body.getField "message" = .str s)
    (hs : jsTrim s ≠ "") (hgen : gen s = .error e) :
    postHandler cfg gen body = (resp500 e, 1)
    ∧ (∀ (body2 : JValue) (s2 t2 : String), body2.getField "message" = .str s2 →
        jsTrim s2 ≠ "" → gen s2 = .ok t2 →
        postHandler cfg gen body2 =
          (⟨200, .obj [("reply", .str t2), ("request", body2),
            ("debug", debugObj cfg)]⟩, 1)) := by
  have hne : s ≠ "" := fun h0 => hs (by rw [h0]; rfl)
  constructor
  · simp [postHandler, postTry, hmsg, JValue.truthy, hne, hs, hgen]
  · intro body2 s2 t2 h2 hs2 hg2
    have hne2 : s2 ≠ "" := fun h0 => hs2 (by rw [h0]; rfl)
    simp [postHandler, postTry, h2, JValue.truthy, hne2, hs2, hg2]

/-- Witness for C6: a failing provider yields the 500 with the failure's
description as `details`. -/
theorem post_generation_error_500_witness :
    postHandler ⟨"gemini-2.0-flash-lite", some "proj-1", "us-central1",
        "google-ai-studio", "gemini-api-key-secret"⟩
      (fun _ => .error "backend unreachable") (.obj [("message", .str "hello")]) =
      (resp500 "backend unreachable", 1) :=
  (post_generation_error_500
    ⟨"gemini-2.0-flash-lite", some "proj-1", "us-central1",
      "google-ai-studio", "gemini-api-key-secret"⟩
    (fun _ => .error "backend unreachable") (.obj [("message", .str "hello")])
    "hello" "backend unreachable" rfl (by decide) rfl).1

/-- C9: every successful POST response carries a `debug` object exposing the
resolved configuration: model name, project, region and provider kind. -/
theorem post_success_debug_fields
    (cfg : Config) (gen : String → Except String String) (body : JValue)
    (s t : String) (hmsg : body.getField "message" = .str s)
    (hs : jsTrim s ≠ "") (hgen : gen s = .ok t) :
    postHandler cfg gen body =
      (⟨200, .obj [("reply", .str t), ("request", body),
        ("debug", .obj [("MODEL_NAME", .str cfg.modelName),
          ("project", match cfg.project with | some p => .str p | none => .undefined),
          ("location", .str cfg.location),
          ("modelProvider", .str cfg.modelProvider)])]⟩, 1) := by
  have hne : s ≠ "" := fun h0 => hs (by rw [h0]; rfl)
  simp [postHandler, postTry, hmsg, JValue.truthy, hne, hs, hgen, debugObj]

/-- Witness for C9 at a concrete configuration and message. -/
theorem post_success_debug_fields_witness :
    postHandler ⟨"gemini-2.0-flash-lite", some "proj-1", "us-central1",
        "google-ai-studio", "gemini-api-key-secret"⟩
      (fun _ => .ok "hi there") (.obj [("message", .str "hello")]) =
      (⟨200, .obj [("reply", .str "hi there"),
        ("request", .obj [("message", .str "hello")]),
        ("debug", .obj [("MODEL_NAME", .str "gemini-2.0-flash-lite"),
          ("project", .str "proj-1"),
          ("location", .str "us-central1"),
          ("modelProvider", .str "google-ai-studio")])]⟩, 1) :=
  post_success_debug_fields _ _ _ "hello" "hi there" rfl (by decide) rfl

/-- C4: with the provider-kind selector unset (or set to the empty string,
which the `||` default treats identically), the AI Studio variant is
constructed as the default; with the selector set to any other
unrecognised non-empty string, selection fails with
`Invalid model provider: <value>` instead of falling back. -/
theorem provider_selection_default_and_unknown (env : Env) :
    (normEnv env.MODEL_PROVIDER = none →
      (resolveConfig env).modelProvider = "google-ai-studio"
      ∧ createProvider (resolveConfig env) =
        .ok (.googleAIStudio (resolveConfig env).modelName (resolveConfig env).project
          (resolveConfig env).googleAIStudioApiSecret))
    ∧ (∀ s, normEnv env.MODEL_PROVIDER = some s →
        s ≠ "google-vertexai" → s ≠ "google-ai-studio" →
        createProvider (resolveConfig env) = .error ("Invalid model provider: " ++ s)) := by
  constructor
  · intro h
    have hmp : (resolveConfig env).modelProvider = "google-ai-studio" := by
      simp [resolveConfig, h]
    exact ⟨hmp, by simp [createProvider, hmp]⟩
  · intro s h h1 h2
    have hmp : (resolveConfig env).modelProvider = s := by
      simp [resolveConfig, h]
    simp [createProvider, hmp, h1, h2]

/-- Witness for C4: the all-unset environment defaults to the AI Studio
variant; a misspelled selector fails with the unknown-provider error. -/
theorem provider_selection_default_and_unknown_witness :
    ((resolveConfig ⟨none, none, none, none, none, none, none⟩).modelProvider =
        "google-ai-studio"
      ∧ createProvider (resolveConfig ⟨none, none, none, none, none, none, none⟩) =
        .ok (.googleAIStudio
          (resolveConfig ⟨none, none, none, none, none, none, none⟩).modelName
          (resolveConfig ⟨none, none, none, none, none, none, none⟩).project
          (resolveConfig ⟨none, none, none, none, none, none, none⟩).googleAIStudioApiSecret))
    ∧ createProvider (resolveConfig ⟨none, none, none, none, none,
        some "azure-openai", none⟩) =
      .error ("Invalid model provider: " ++ "azure-openai") :=
  ⟨(provider_selection_default_and_unknown ⟨none, none, none, none, none, none, none⟩).1 rfl,
   (provider_selection_default_and_unknown ⟨none, none, none, none, none,
       some "azure-openai", none⟩).2 "azure-openai" rfl (by decide) (by decide)⟩

/-- C2, as stated, is false for its second configuration: with the API-key
variant selected and no secret reference configured, the code falls back to
the default secret name `gemini-api-key-secret` instead of failing, so with
a configured project and a resolvable secret the process starts and binds
its port. -/
theorem startup_no_secret_env_can_bind :
    startup ⟨none, some "proj-1", none, none, none, some "google-ai-studio", none⟩
      (fun _ => .ok "the-api-key") = .ok () := rfl

/-- C2 (amended): startup fails when the Vertex variant is selected and no
project id is configured, and when the provider kind matches neither
recognized value; with the API-key variant and no secret reference
configured, the default bare secret name is used, so startup fails exactly
when that default cannot be resolved — in particular whenever no project id
is configured either. -/
theorem startup_failure_modes (env : Env) (store : String → Except String String) :
    ((resolveConfig env).modelProvider = "google-vertexai" →
      (resolveConfig env).project = none → ∃ e, startup env store = .error e)
    ∧ ((resolveConfig env).modelProvider ≠ "google-vertexai" →
        (resolveConfig env).modelProvider ≠ "google-ai-studio" →
        ∃ e, startup env store = .error e)
    ∧ (normEnv env.GOOGLE_AI_STUDIO_API_SECRET = none →
        (resolveConfig env).modelProvider = "google-ai-studio" →
        (resolveConfig env).project = none →
        ∃ e, startup env store = .error e) := by
  refine ⟨fun h1 h2 => ?_, fun h1 h2 => ?_, fun h0 h1 h2 => ?_⟩
  · refine ⟨"GOOGLE_CLOUD_PROJECT environment variable is required for Vertex AI", ?_⟩
    simp [startup, createProvider, h1, initProvider, VertexAIProvider.init, h2]
  · refine ⟨"Invalid model provider: " ++ (resolveConfig env).modelProvider, ?_⟩
    simp [startup, createProvider, h1, h2]
  · have hsec : (resolveConfig env).googleAIStudioApiSecret = "gemini-api-key-secret" := by
      simp [resolveConfig, h0]
    have hpre : jsStartsWith "gemini-api-key-secret" "projects/" = false := by decide
    refine ⟨"GOOGLE_CLOUD_PROJECT environment variable is required to resolve Secret Manager secrets", ?_⟩
    simp [startup, createProvider, h1, initProvider, GoogleAIStudioProvider.init,
      hsec, hpre, h2]

/-- Witness for C2 (amended): each of the three failing configurations at a
concrete environment. -/
theorem startup_failure_modes_witness :
    (∃ e, startup ⟨none, none, none, none, none, some "google-vertexai", none⟩
        (fun _ => .ok "k") = .error e)
    ∧ (∃ e, startup ⟨none, none, none, none, none, some "azure-openai", none⟩
        (fun _ => .ok "k") = .error e)
    ∧ (∃ e, startup ⟨none, none, none, none, none, none, none⟩
        (fun _ => .ok "k") = .error e) :=
  ⟨(startup_failure_modes ⟨none, none, none, none, none, some "google-vertexai", none⟩
      (fun _ => .ok "k")).1 rfl rfl,
   (startup_failure_modes ⟨none, none, none, none, none, some "azure-openai", none⟩
      (fun _ => .ok "k")).2.1 (by decide) (by decide),
   (startup_failure_modes ⟨none, none, none, none, none, none, none⟩
      (fun _ => .ok "k")).2.2 rfl rfl rfl⟩

/-- C5: against a backend whose call succeeds, a successful Vertex
`generateContent(m)` returns exactly the text of the first part of the
first candidate of the backend response (a string, never null); when the
backend response has zero candidates, the call fails (the property chain
`candidates[0].content.parts[0].text` throws) instead of returning an
empty or null string. -/
theorem vertex_generate_first_candidate
    (self : InitedModel) (backend : String → Except String VertexResponse)
    (m : String) (hm : jsTrim m ≠ "") (r : VertexResponse)
    (hb : backend m = .ok r) :
    (∀ t, (VertexAIProvider.generateContent self backend m).1 = .ok t →
      ∃ c cs p ps, r.candidates = c :: cs ∧ c.content.parts = p :: ps ∧ t = p.text)
    ∧ (r.candidates = [] →
      ∃ e, (VertexAIProvider.generateContent self backend m).1 = .error e) := by
  constructor
  · intro t ht
    rcases hcand : r.candidates with _ | ⟨c, cs⟩
    · simp [VertexAIProvider.generateContent, hb, extractFirstCandidateText, hcand] at ht
    · rcases hparts : c.content.parts with _ | ⟨p, ps⟩
      · simp [VertexAIProvider.generateContent, hb, extractFirstCandidateText,
          hcand, hparts] at ht
      · refine ⟨c, cs, p, ps, by simp [hcand], by simp [hparts], ?_⟩
        simp [VertexAIProvider.generateContent, hb, extractFirstCandidateText,
          hcand, hparts] at ht
        exact ht.symm
  · intro hc
    exact ⟨"Cannot read properties of undefined (reading 'content')",
      by simp [VertexAIProvider.generateContent, hb, extractFirstCandidateText, hc]⟩

/-- Witness for C5: a backend stub returning zero candidates makes the
Vertex generate call fail. -/
theorem vertex_generate_first_candidate_witness :
    ∃ e, (VertexAIProvider.generateContent
      (.vertexModel "proj-1" "us-central1" "gemini-2.0-flash-lite")
      (fun _ => .ok ⟨[]⟩) "hello").1 = .error e :=
  (vertex_generate_first_candidate
    (.vertexModel "proj-1" "us-central1" "gemini-2.0-flash-lite")
    (fun _ => .ok ⟨[]⟩) "hello" (by decide) ⟨[]⟩ rfl).2 rfl

/-- C10, as stated, is false: a present non-string `message` that is falsy
under JS coercion — here the JSON number 0 — does take the validation
branch and is answered 400 `Message is required` (with zero provider
calls), not 500. -/
theorem post_falsy_nonstring_message_is_400 :
    postHandler ⟨"gemini-2.0-flash-lite", some "proj-1", "us-central1",
        "google-ai-studio", "gemini-api-key-secret"⟩
      (fun _ => .ok "ok") (.obj [("message", .num 0)]) = (resp400, 0)
    ∧ resp400.status = 400 := ⟨rfl, rfl⟩

/-- C10 (amended): a present non-string `message` value that is truthy
under JS coercion (a nonzero number, `true`, an object or an array) skips
the 400 branch; the `.trim()` call on it throws a `TypeError`, and the
request is answered 500 `Error generating content` without invoking the
provider.  A falsy non-string value (0, `false`, `null`) instead takes the
validation branch and is answered 400 `Message is required`. -/
theorem post_nonstring_message_dispatch
    (cfg : Config) (gen : String → Except String String) (body : JValue)
    (v : JValue) (hmsg : body.getField "message" = v)
    (hstr : ∀ u : String, v ≠ .str u) :
    (v.truthy = true →
      postHandler cfg gen body = (resp500 "userMessage.trim is not a function", 0))
    ∧ (v.truthy = false → postHandler cfg gen body = (resp400, 0)) := by
  cases v with
  | str u => exact absurd rfl (hstr u)
  | undefined =>
    exact ⟨fun ht => by simp [JValue.truthy] at ht,
      fun _ => by simp [postHandler, postTry, hmsg, JValue.truthy]⟩
  | null =>
    exact ⟨fun ht => by simp [JValue.truthy] at ht,
      fun _ => by simp [postHandler, postTry, hmsg, JValue.truthy]⟩
  | bool b =>
    refine ⟨fun ht => ?_, fun hf => ?_⟩
    · have hb : b = true := by simpa [JValue.truthy] using ht
      subst hb
      simp [postHandler, postTry, hmsg, JValue.truthy]
    · have hb : b = false := by simpa [JValue.truthy] using hf
      subst hb
      simp [postHandler, postTry, hmsg, JValue.truthy]
  | num n =>
    refine ⟨fun ht => ?_, fun hf => ?_⟩
    · have hn : n ≠ 0 := by simpa [JValue.truthy] using ht
      simp [postHandler, postTry, hmsg, JValue.truthy, hn]
    · have hn : n = 0 := by simpa [JValue.truthy] using hf
      subst hn
      simp [postHandler, postTry, hmsg, JValue.truthy]
  | obj fs =>
    exact ⟨fun _ => by simp [postHandler, postTry, hmsg, JValue.truthy],
      fun hf => by simp [JValue.truthy] at hf⟩
  | arr es =>
    exact ⟨fun _ => by simp [postHandler, postTry, hmsg, JValue.truthy],
      fun hf => by simp [JValue.truthy] at hf⟩

/-- Witness for C10 (amended): `message: 1` (a truthy JSON number) is
answered 500 with zero provider calls. -/
theorem post_nonstring_message_dispatch_witness :
    postHandler ⟨"gemini-2.0-flash-lite", some "proj-1", "us-central1",
        "google-ai-studio", "gemini-api-key-secret"⟩
      (fun _ => .ok "ok") (.obj [("message", .num 1)]) =
      (resp500 "userMessage.trim is not a function", 0) :=
  (post_nonstring_message_dispatch
    ⟨"gemini-2.0-flash-lite", some "proj-1", "us-central1",
      "google-ai-studio", "gemini-api-key-secret"⟩
    (fun _ => .ok "ok") (.obj [("message", .num 1)]) (.num 1) rfl
    (fun _ h => JValue.noConfusion h)).1 rfl
